import Mathlib

/-
Verification of the booking eligibility and conflict-validation engine of
`src/client/src/pages/BookSlot.tsx` (the `BookSlot` component).

The engine consists of four reactive warning computations (timeline / lead
time, venue approval routing, operating hours, booking conflicts), a state
record holding the current warnings, the venue-toggle mutation of the draft,
and the submission gate derived from the warnings.  Each TypeScript piece is
embedded below as a pure Lean function; React state updates become explicit
state passing of the `Warnings` record, and the asynchronous conflict check
becomes an explicit result value (`Option ConflictResult`, `none` modelling a
caught transport failure) together with a fold over response-arrival order.

Conventions of the embedding:
* form fields are strings, with `""` playing the role of the falsy
  empty/absent value, exactly as in the TypeScript truthiness checks;
* the selected date is `Option Int`: `none` for no date, `some d` for the
  calendar day number (days since the epoch) of the `YYYY-MM-DD` string;
  parsing such a string yields the instant `d * msPerDay` (UTC midnight);
* instants ("now", parsed dates) are integer milliseconds since the epoch;
* JavaScript string relational operators on `"HH:MM"` strings are embedded
  as an executable lexicographic comparison on the character list (identical
  to code-unit order for these ASCII strings).
-/

/-! ## JavaScript string comparison -/

/-- Lexicographic strict comparison of character lists, mirroring the
JavaScript relational operators on strings (code-unit order; for the ASCII
`"HH:MM"` strings compared in the source this coincides with code-point
order). -/
def charListLtb : List Char → List Char → Bool
  | [], [] => false
  | [], _ :: _ => true
  | _ :: _, [] => false
  | a :: as, b :: bs => if a < b then true else if a == b then charListLtb as bs else false

/-- JavaScript `a < b` on strings. -/
def strLtb (a b : String) : Bool := charListLtb a.data b.data

/-- JavaScript `a <= b` on strings (total order: `a <= b` iff not `b < a`). -/
def strLeb (a b : String) : Bool := !(strLtb b a)

/-! ## Warning state and messages -/

/-- The `warnings` React state of `BookSlot` (lines 90-96): one message slot
per warning kind, plus the display tag of the venue-routing message.  Empty
string means the slot is absent/falsy. -/
structure Warnings where
  timeline : String
  conflict : String
  venue : String
  venueType : String
  hours : String
deriving DecidableEq, Repr

/-- The initial `warnings` state: every slot empty. -/
def initialWarnings : Warnings :=
  { timeline := "", conflict := "", venue := "", venueType := "", hours := "" }

def coCurricularMsg : String :=
  "Co-curricular events must be booked at least 30 days in advance."

def openAllMsg : String :=
  "Open-for-All events must be booked at least 20 days in advance."

def closedClubMsg : String :=
  "Closed club events must be booked at least 1 day in advance."

def orderMsg : String := "End time must be after start time."

def weekendMsg : String := "On weekends, bookings are allowed from 8:00 AM to 12:00 AM."

def weekdayMsg : String := "On weekdays, bookings are only allowed from 4:00 PM to 12:00 AM."

def categoryBMsg : String :=
  "Includes Category B Venue(s): Requires Sleazzy Convener & Faculty Approval."

def categoryAMsg : String :=
  "Category A Venues: Direct booking available (Subject to vacancy)."

def conflictErrorMsg : String :=
  "Could not verify conflicts. Please check your connection and try again."

/-! ## Timeline validation (source lines 172-191) -/

/-- Milliseconds per day, the divisor `1000 * 60 * 60 * 24` of the source. -/
def msPerDay : Int := 1000 * 60 * 60 * 24

/-- `Math.ceil (a / b)` for integer `a` and positive integer `b`: the
JavaScript expression `Math.ceil(diffTime / (1000 * 60 * 60 * 24))` computed
exactly. -/
def ceilDivInt (a b : Int) : Int := (a + b - 1) / b

/-- `diffDays` of the timeline effect: the ceiling of the difference between
the parsed selected date (an instant, here already in milliseconds) and the
current instant, in days. -/
def diffDays (dateMs nowMs : Int) : Int := ceilDivInt (dateMs - nowMs) msPerDay

/-- The `warningMsg` computed by the timeline effect for a selected date:
the else-if chain over the event type, comparing `diffDays` against the
per-type threshold.  `dateDay` is the calendar day number of the selected
date; its parsed instant is `dateDay * msPerDay`. -/
def timelineWarning (eventType : String) (dateDay : Int) (nowMs : Int) : String :=
  let dd := diffDays (dateDay * msPerDay) nowMs
  if eventType = "co_curricular" ∧ dd < 30 then coCurricularMsg
  else if eventType = "open_all" ∧ dd < 20 then openAllMsg
  else if eventType = "closed_club" ∧ dd < 1 then closedClubMsg
  else ""

/-- The timeline-validation effect (lines 172-191).  With no date selected it
returns early (`if (!formData.date) return;`), leaving the warning state
untouched; otherwise it overwrites the `timeline` slot with the computed
message. -/
def timelineEffect (eventType : String) (date : Option Int) (nowMs : Int)
    (w : Warnings) : Warnings :=
  match date with
  | none => w
  | some d => { w with timeline := timelineWarning eventType d nowMs }

/-! ## Venue category resolution and venue permission (source lines 157-169, 194-216) -/

/-- A venue record as far as the engine reads it: an identifier and an
optional category string.  Used both for the fetched venue list and for the
static fallback list `VENUES`. -/
structure Venue where
  id : String
  category : Option String
deriving DecidableEq, Repr

/-- `normalizeVenueCategory` (lines 157-162).  A falsy category (absent or
empty string) yields `undefined`; the two legacy spellings map to the
canonical letters; anything else passes through. -/
def normalizeVenueCategory : Option String → Option String
  | none => none
  | some c =>
    if c = "" then none
    else if c = "auto_approval" then some "A"
    else if c = "needs_approval" then some "B"
    else some c

/-- `getVenueCategory` (lines 164-169): normalize the category found in the
fetched venue list; if that is truthy return it, otherwise fall back to the
raw (un-normalized) category from the static `VENUES` list. -/
def getVenueCategory (apiVenues staticVenues : List Venue) (id : String) : Option String :=
  match normalizeVenueCategory ((apiVenues.find? (fun v => v.id == id)).bind Venue.category) with
  | some n => some n
  | none => (staticVenues.find? (fun v => v.id == id)).bind Venue.category

/-- The venue-permission effect (lines 194-216): empty selection clears the
venue message and its tag; otherwise, if any selected venue resolves to
`"B"` or to the legacy `"needs_approval"`, the Category B advisory is set
with a `warning` tag, else the Category A advisory with a `success` tag. -/
def venueEffect (apiVenues staticVenues : List Venue) (venueIds : List String)
    (w : Warnings) : Warnings :=
  if venueIds.isEmpty then { w with venue := "", venueType := "" }
  else if (venueIds.map (getVenueCategory apiVenues staticVenues)).any
      (fun c => c == some "B" || c == some "needs_approval") then
    { w with venue := categoryBMsg, venueType := "warning" }
  else
    { w with venue := categoryAMsg, venueType := "success" }

/-! ## Operating hours (source lines 219-247) -/

/-- `Date.prototype.getDay()` for the UTC-midnight instant of calendar day
number `dateDay`, evaluated in UTC: day 0 (1970-01-01) was a Thursday, JS
encodes Sunday as 0. -/
def jsGetDay (dateDay : Int) : Int := (dateDay + 4) % 7

/-- The operating-hours effect (lines 219-247).  Missing date, start, or end
clears the `hours` slot; otherwise the slot is overwritten with the
`errorMsg` of the source: ordering violation first, then the weekend or
weekday start lower bound, else empty. -/
def hoursEffect (date : Option Int) (startTime endTime : String) (w : Warnings) : Warnings :=
  match date with
  | none => { w with hours := "" }
  | some d =>
    if startTime = "" ∨ endTime = "" then { w with hours := "" }
    else
      { w with hours :=
          if strLeb endTime startTime then orderMsg
          else if jsGetDay d = 0 ∨ jsGetDay d = 6 then
            (if strLtb startTime "08:00" then weekendMsg else "")
          else
            (if strLtb startTime "16:00" then weekdayMsg else "") }

/-! ## Conflict check (source lines 250-292) -/

/-- The response body of `/api/bookings/check-conflict`. -/
structure ConflictResult where
  hasConflict : Bool
  message : String
deriving DecidableEq, Repr

/-- Resolution of one conflict-check call (lines 275-288): `none` models a
caught transport/availability failure (the `catch` branch), which writes the
fixed connection warning; a successful response writes the authority's
message when `hasConflict` is true and clears the slot otherwise. -/
def resolveConflict (res : Option ConflictResult) (w : Warnings) : Warnings :=
  match res with
  | none => { w with conflict := conflictErrorMsg }
  | some r =>
    if r.hasConflict then { w with conflict := r.message }
    else { w with conflict := "" }

/-- The conflict-logic effect (lines 250-292) for one issued request whose
response resolved with `res`: a missing date, start, end, or club clears the
`conflict` slot without issuing a request; otherwise the resolved response is
applied. -/
def conflictEffect (date : Option Int) (startTime endTime clubName : String)
    (res : Option ConflictResult) (w : Warnings) : Warnings :=
  if date = none ∨ startTime = "" ∨ endTime = "" ∨ clubName = "" then
    { w with conflict := "" }
  else resolveConflict res w

/-- The warning state after a sequence of conflict-check responses lands, in
arrival order.  Each response applies its `setWarnings` update when it
resolves; the source installs no sequence number, cleanup, or echoed-input
check, so later arrivals simply overwrite earlier ones. -/
def applyResponses (arrivals : List (Option ConflictResult)) (w : Warnings) : Warnings :=
  arrivals.foldl (fun acc r => resolveConflict r acc) w

/-! ## Submission gate and aggregate evaluation (source lines 308-316, 352) -/

/-- `hasErrors` (line 352): truthiness of the timeline, conflict, or hours
slot.  The venue-routing message and its tag are not consulted. -/
def hasErrors (w : Warnings) : Bool :=
  w.timeline != "" || w.conflict != "" || w.hours != ""

/-- The verdict gate: submission is allowed exactly when `hasErrors` is
false (the submit button is `disabled={hasErrors || isSubmitting}`). -/
def submittable (w : Warnings) : Bool := !hasErrors w

/-- The guard at the top of `handleSubmit` (line 311): the action returns
early (blocked) when the timeline, conflict, or hours warning is truthy. -/
def submitBlocked (w : Warnings) : Bool :=
  w.timeline != "" || w.conflict != "" || w.hours != ""

/-- The draft fields the four warning effects read. -/
structure Draft where
  eventType : String
  clubName : String
  date : Option Int
  startTime : String
  endTime : String
  venueIds : List String
deriving DecidableEq, Repr

/-- One full evaluation pass: all four effects applied to the previous
warning state for the given draft, catalog snapshot, current instant, and
conflict-check result. -/
def evaluate (apiVenues staticVenues : List Venue) (draft : Draft) (nowMs : Int)
    (res : Option ConflictResult) (w : Warnings) : Warnings :=
  conflictEffect draft.date draft.startTime draft.endTime draft.clubName res
    (hoursEffect draft.date draft.startTime draft.endTime
      (venueEffect apiVenues staticVenues draft.venueIds
        (timelineEffect draft.eventType draft.date nowMs w)))

/-! ## Venue toggle (source lines 298-306) -/

/-- `handleVenueToggle`: if the identifier is already selected, filter out
every occurrence; otherwise append it at the end. -/
def handleVenueToggle (venueId : String) (current : List String) : List String :=
  if venueId ∈ current then current.filter (fun id => id ≠ venueId)
  else current ++ [venueId]

/-! ## Theorems -/

/-- Claim C1: the verdict gate `submittable` is false exactly when at least
one of the Timeline, Hours, or Conflict warnings is non-empty; the
venue-routing message and its tag have no effect on it; and the
`handleSubmit` guard blocks the submit action exactly when the gate is
false. -/
theorem submit_gate_spec (w : Warnings) :
    (submittable w = false ↔ (w.timeline ≠ "" ∨ w.hours ≠ "" ∨ w.conflict ≠ ""))
    ∧ (∀ v t : String, submittable { w with venue := v, venueType := t } = submittable w)
    ∧ (submitBlocked w = true ↔ submittable w = false) := by
  refine ⟨?_, fun v t => rfl, ?_⟩
  · simp [submittable, hasErrors]
    tauto
  · simp [submittable, submitBlocked, hasErrors]
    tauto

theorem submit_gate_spec_witness :
    submitBlocked
        { timeline := coCurricularMsg, conflict := "", venue := "", venueType := "",
          hours := "" } = true ↔
      submittable
        { timeline := coCurricularMsg, conflict := "", venue := "", venueType := "",
          hours := "" } = false :=
  (submit_gate_spec
    { timeline := coCurricularMsg, conflict := "", venue := "", venueType := "", hours := "" }).2.2

/-- Claim C2: with the current instant written as `t` whole days plus a
sub-day remainder `r`, the timeline effect's `diffDays` for the date of
calendar day `d` equals the calendar-day difference `d - t` (no sub-day
precision leaks through the ceiling), and for each of the three event types
the effect writes the exact violation message when `diffDays` is below the
type's threshold (CoCurricular 30, OpenForAll 20, ClosedClub 1), and the
empty string at or above it. -/
theorem lead_time_policy_spec (d t r : Int) (hr0 : 0 ≤ r) (hr1 : r < msPerDay)
    (et : String)
    (het : et = "co_curricular" ∨ et = "open_all" ∨ et = "closed_club")
    (w : Warnings) :
    diffDays (d * msPerDay) (t * msPerDay + r) = d - t
    ∧ (timelineEffect et (some d) (t * msPerDay + r) w).timeline =
        (if et = "co_curricular" then (if d - t < 30 then coCurricularMsg else "")
         else if et = "open_all" then (if d - t < 20 then openAllMsg else "")
         else (if d - t < 1 then closedClubMsg else "")) := by
  have key : diffDays (d * msPerDay) (t * msPerDay + r) = d - t := by
    simp only [diffDays, ceilDivInt, msPerDay] at *
    omega
  refine ⟨key, ?_⟩
  simp only [timelineEffect, timelineWarning, key]
  rcases het with h | h | h <;> subst h <;> split_ifs <;> simp_all

theorem lead_time_policy_spec_witness :
    (0 : Int) ≤ 5 ∧ (5 : Int) < msPerDay
    ∧ (("co_curricular" : String) = "co_curricular" ∨ ("co_curricular" : String) = "open_all"
        ∨ ("co_curricular" : String) = "closed_club")
    ∧ (diffDays (10 * msPerDay) (0 * msPerDay + 5) = 10 - 0
       ∧ (timelineEffect "co_curricular" (some 10) (0 * msPerDay + 5) initialWarnings).timeline =
          (if ("co_curricular" : String) = "co_curricular" then
            (if (10 : Int) - 0 < 30 then coCurricularMsg else "")
           else if ("co_curricular" : String) = "open_all" then
            (if (10 : Int) - 0 < 20 then openAllMsg else "")
           else (if (10 : Int) - 0 < 1 then closedClubMsg else ""))) :=
  ⟨by decide, by decide, Or.inl rfl,
    lead_time_policy_spec 10 0 5 (by decide) (by decide) "co_curricular" (Or.inl rfl)
      initialWarnings⟩

/-- Claim C3: with date, start, and end all present, the hours effect
reports the ordering violation exactly when `end <= start` under
lexicographic comparison, regardless of the day of week; otherwise on a
weekend (Sunday 0 / Saturday 6) it reports the weekend message exactly when
the start is before "08:00", on a weekday the weekday message exactly when
the start is before "16:00", and the empty string in all remaining cases
(only the start lower bound is checked). -/
theorem operating_hours_spec (d : Int) (s e : String) (hs : s ≠ "") (he : e ≠ "")
    (w : Warnings) :
    ((hoursEffect (some d) s e w).hours = orderMsg ↔ strLeb e s = true)
    ∧ (jsGetDay d = 0 ∨ jsGetDay d = 6 →
        ((hoursEffect (some d) s e w).hours = weekendMsg ↔
          (strLeb e s = false ∧ strLtb s "08:00" = true)))
    ∧ (¬ (jsGetDay d = 0 ∨ jsGetDay d = 6) →
        ((hoursEffect (some d) s e w).hours = weekdayMsg ↔
          (strLeb e s = false ∧ strLtb s "16:00" = true)))
    ∧ ((hoursEffect (some d) s e w).hours = "" ↔
        (strLeb e s = false ∧
          ((jsGetDay d = 0 ∨ jsGetDay d = 6) → strLtb s "08:00" = false) ∧
          (¬ (jsGetDay d = 0 ∨ jsGetDay d = 6) → strLtb s "16:00" = false))) := by
  have h1 : orderMsg ≠ weekendMsg := by decide
  have h2 : orderMsg ≠ weekdayMsg := by decide
  have h3 : weekendMsg ≠ weekdayMsg := by decide
  have h4 : weekendMsg ≠ orderMsg := by decide
  have h5 : weekdayMsg ≠ orderMsg := by decide
  have h6 : weekdayMsg ≠ weekendMsg := by decide
  have h7 : orderMsg ≠ "" := by decide
  have h8 : weekendMsg ≠ "" := by decide
  have h9 : weekdayMsg ≠ "" := by decide
  have h10 : ("" : String) ≠ orderMsg := by decide
  have h11 : ("" : String) ≠ weekendMsg := by decide
  have h12 : ("" : String) ≠ weekdayMsg := by decide
  simp only [hoursEffect, hs, he, false_or, if_neg, or_self]
  split_ifs <;> simp_all

theorem operating_hours_spec_witness :
    ("07:00" : String) ≠ "" ∧ ("09:00" : String) ≠ ""
    ∧ ((hoursEffect (some 3) "07:00" "09:00" initialWarnings).hours = weekendMsg ↔
        (strLeb "09:00" "07:00" = false ∧ strLtb "07:00" "08:00" = true)) :=
  ⟨by decide, by decide,
    (operating_hours_spec 3 "07:00" "09:00" (by decide) (by decide) initialWarnings).2.1
      (by decide)⟩

/-- The boolean `hasCategoryB` test of the venue-permission effect holds
exactly when some selected identifier resolves to `"B"` or to the legacy
`"needs_approval"`. -/
theorem venueEffect_any_iff (api fb : List Venue) (ids : List String) :
    ((ids.map (getVenueCategory api fb)).any
        (fun c => c == some "B" || c == some "needs_approval") = true) ↔
      ∃ id ∈ ids, getVenueCategory api fb id = some "B" ∨
        getVenueCategory api fb id = some "needs_approval" := by
  simp [List.any_map, List.any_eq_true, Function.comp]

/-- A selection containing a restricted venue produces the Category B
advisory with a warning tag, whatever else is selected. -/
theorem venueEffect_has_restricted (api fb : List Venue) (ids : List String) (w : Warnings)
    (hB : ∃ id ∈ ids, getVenueCategory api fb id = some "B" ∨
        getVenueCategory api fb id = some "needs_approval") :
    venueEffect api fb ids w = { w with venue := categoryBMsg, venueType := "warning" } := by
  have hne : ids ≠ [] := by
    rcases hB with ⟨id, hid, _⟩
    intro h; subst h; simp at hid
  have hempty : ids.isEmpty = false := by simp [List.isEmpty_iff, hne]
  simp [venueEffect, hempty, (venueEffect_any_iff api fb ids).mpr hB]

/-- A non-empty selection in which nothing resolves to a restricted category
produces the Category A advisory with a success tag. -/
theorem venueEffect_all_direct (api fb : List Venue) (ids : List String) (w : Warnings)
    (hne : ids ≠ [])
    (hall : ∀ id ∈ ids, getVenueCategory api fb id ≠ some "B" ∧
        getVenueCategory api fb id ≠ some "needs_approval") :
    venueEffect api fb ids w = { w with venue := categoryAMsg, venueType := "success" } := by
  have hempty : ids.isEmpty = false := by simp [List.isEmpty_iff, hne]
  have hany : ((ids.map (getVenueCategory api fb)).any
      (fun c => c == some "B" || c == some "needs_approval")) = false := by
    rw [Bool.eq_false_iff]
    intro h
    rcases (venueEffect_any_iff api fb ids).mp h with ⟨id, hid, hcat⟩
    rcases hcat with hcat | hcat
    · exact (hall id hid).1 hcat
    · exact (hall id hid).2 hcat
  simp [venueEffect, hempty, hany]

/-- Claim C4: the venue classifier emits no message for an empty selection;
for a non-empty selection it emits the warning-tagged Category B advisory
exactly when some selected venue resolves to `"B"` or to the legacy
`"needs_approval"` (however many Direct venues are also selected), and the
success-tagged Category A advisory otherwise; and the effect never changes
the `submittable` gate. -/
theorem venue_classifier_spec (api fb : List Venue) (ids : List String) (w : Warnings) :
    (ids = [] → (venueEffect api fb ids w).venue = "" ∧ (venueEffect api fb ids w).venueType = "")
    ∧ (ids ≠ [] →
        (∃ id ∈ ids, getVenueCategory api fb id = some "B" ∨
            getVenueCategory api fb id = some "needs_approval") →
        (venueEffect api fb ids w).venue = categoryBMsg ∧
          (venueEffect api fb ids w).venueType = "warning")
    ∧ (ids ≠ [] →
        (∀ id ∈ ids, getVenueCategory api fb id ≠ some "B" ∧
            getVenueCategory api fb id ≠ some "needs_approval") →
        (venueEffect api fb ids w).venue = categoryAMsg ∧
          (venueEffect api fb ids w).venueType = "success")
    ∧ submittable (venueEffect api fb ids w) = submittable w := by
  refine ⟨?_, ?_, ?_, ?_⟩
  · intro h; subst h; simp [venueEffect]
  · intro _ hB; rw [venueEffect_has_restricted api fb ids w hB]; exact ⟨rfl, rfl⟩
  · intro hne hall; rw [venueEffect_all_direct api fb ids w hne hall]; exact ⟨rfl, rfl⟩
  · unfold venueEffect
    split_ifs <;> simp [submittable, hasErrors]

theorem venue_classifier_spec_witness :
    (venueEffect [{ id := "v1", category := some "needs_approval" }] [] ["v1"]
        initialWarnings).venue = categoryBMsg
    ∧ (venueEffect [{ id := "v1", category := some "needs_approval" }] [] ["v1"]
        initialWarnings).venueType = "warning" :=
  (venue_classifier_spec [{ id := "v1", category := some "needs_approval" }] [] ["v1"]
      initialWarnings).2.1
    (by decide) ⟨"v1", by decide, by decide⟩

/-- Claim C5: with date, start, end, and club present, a transport failure of
the conflict check (the `catch` branch) writes the exact connection warning
into the Conflict slot and forces `submittable` to false (fail closed); a
successful response with `hasConflict` true writes the authority-supplied
message, and with `hasConflict` false clears the slot. -/
theorem conflict_error_handling_spec (d : Int) (s e c : String)
    (hs : s ≠ "") (he : e ≠ "") (hc : c ≠ "") (w : Warnings) :
    ((conflictEffect (some d) s e c none w).conflict = conflictErrorMsg
      ∧ submittable (conflictEffect (some d) s e c none w) = false)
    ∧ (∀ m : String, (conflictEffect (some d) s e c (some ⟨true, m⟩) w).conflict = m)
    ∧ (∀ m : String, (conflictEffect (some d) s e c (some ⟨false, m⟩) w).conflict = "") := by
  have hmsg : conflictErrorMsg ≠ "" := by decide
  refine ⟨⟨?_, ?_⟩, ?_, ?_⟩ <;>
    simp [conflictEffect, resolveConflict, hs, he, hc, submittable, hasErrors,
      bne_iff_ne, hmsg]

theorem conflict_error_handling_spec_witness :
    ("16:00" : String) ≠ "" ∧ ("17:00" : String) ≠ "" ∧ ("Robotics" : String) ≠ ""
    ∧ (conflictEffect (some 0) "16:00" "17:00" "Robotics" none initialWarnings).conflict =
        conflictErrorMsg
    ∧ submittable (conflictEffect (some 0) "16:00" "17:00" "Robotics" none initialWarnings) = false
    ∧ (conflictEffect (some 0) "16:00" "17:00" "Robotics" (some ⟨true, "Clash."⟩)
        initialWarnings).conflict = "Clash."
    ∧ (conflictEffect (some 0) "16:00" "17:00" "Robotics" (some ⟨false, ""⟩)
        initialWarnings).conflict = "" :=
  ⟨by decide, by decide, by decide,
    (conflict_error_handling_spec 0 "16:00" "17:00" "Robotics" (by decide) (by decide) (by decide)
      initialWarnings).1.1,
    (conflict_error_handling_spec 0 "16:00" "17:00" "Robotics" (by decide) (by decide) (by decide)
      initialWarnings).1.2,
    (conflict_error_handling_spec 0 "16:00" "17:00" "Robotics" (by decide) (by decide) (by decide)
      initialWarnings).2.1 "Clash.",
    (conflict_error_handling_spec 0 "16:00" "17:00" "Robotics" (by decide) (by decide) (by decide)
      initialWarnings).2.2 ""⟩

/-- Claim C6 (refuting evaluation): the source installs no staleness guard,
so conflict responses apply in arrival order.  A check for an older draft
that found a conflict, resolving after the newer draft's clean check,
overwrites the newer verdict: the final Conflict slot carries the stale
message and blocks submission, although the newer snapshot's own resolution
leaves the slot empty and the gate open. -/
theorem stale_conflict_response_overwrites :
    (applyResponses [some ⟨false, ""⟩, some ⟨true, "Conflicts with an existing booking."⟩]
        initialWarnings).conflict = "Conflicts with an existing booking."
    ∧ (resolveConflict (some ⟨false, ""⟩) initialWarnings).conflict = ""
    ∧ submittable (applyResponses
        [some ⟨false, ""⟩, some ⟨true, "Conflicts with an existing booking."⟩]
        initialWarnings) = false
    ∧ submittable (resolveConflict (some ⟨false, ""⟩) initialWarnings) = true := by
  decide

/-- Claim C7 (refuting evaluation): the evaluation pass is not a function of
draft, catalog, instant, and conflict result alone.  With no date selected
the timeline effect's early return leaks the previous warning state through:
the same draft, catalog, instant, and conflict result produce different
verdicts from two different prior states. -/
theorem evaluate_hidden_state :
    evaluate []
        []
        { eventType := "co_curricular", clubName := "", date := none,
          startTime := "", endTime := "", venueIds := [] }
        0 none initialWarnings
      ≠ evaluate []
          []
          { eventType := "co_curricular", clubName := "", date := none,
            startTime := "", endTime := "", venueIds := [] }
          0 none
          { timeline := coCurricularMsg, conflict := "", venue := "", venueType := "",
            hours := "" }
    ∧ (evaluate []
        []
        { eventType := "co_curricular", clubName := "", date := none,
          startTime := "", endTime := "", venueIds := [] }
        0 none initialWarnings).timeline = ""
    ∧ (evaluate []
        []
        { eventType := "co_curricular", clubName := "", date := none,
          startTime := "", endTime := "", venueIds := [] }
        0 none
        { timeline := coCurricularMsg, conflict := "", venue := "", venueType := "",
          hours := "" }).timeline = coCurricularMsg := by
  decide

/-- Claim C8 (refuting evaluation): selecting a near date sets the timeline
warning; clearing the date afterwards hits the effect's early return, which
leaves the non-empty warning in place and the submission gate closed,
instead of removing the Timeline message. -/
theorem timeline_warning_retained_without_date :
    (timelineEffect "co_curricular" (some 5) 0 initialWarnings).timeline = coCurricularMsg
    ∧ (timelineEffect "co_curricular" none 0
        (timelineEffect "co_curricular" (some 5) 0 initialWarnings)).timeline = coCurricularMsg
    ∧ coCurricularMsg ≠ ""
    ∧ submittable (timelineEffect "co_curricular" none 0
        (timelineEffect "co_curricular" (some 5) 0 initialWarnings)) = false := by
  decide

/-- Toggling preserves duplicate-freeness of the selection. -/
theorem handleVenueToggle_nodup (id : String) (l : List String) (h : l.Nodup) :
    (handleVenueToggle id l).Nodup := by
  unfold handleVenueToggle
  split_ifs with hmem
  · exact h.filter _
  · simp [List.nodup_append, h, hmem]

/-- Any toggle sequence starting from a duplicate-free selection keeps it
duplicate-free. -/
theorem toggleFold_nodup (ops : List String) :
    ∀ acc : List String, acc.Nodup →
      (ops.foldl (fun cur id => handleVenueToggle id cur) acc).Nodup := by
  induction ops with
  | nil => intro acc h; exact h
  | cons a as ih =>
    intro acc h
    exact ih _ (handleVenueToggle_nodup a acc h)

/-- Claim C9: starting from the empty selection, every sequence of venue
toggles yields a duplicate-free selection; toggling a present identifier
removes it, and toggling an absent one appends it once at the end. -/
theorem venue_toggle_spec (ops : List String) :
    (ops.foldl (fun cur id => handleVenueToggle id cur) []).Nodup
    ∧ (∀ l : List String, ∀ id, id ∈ l → id ∉ handleVenueToggle id l)
    ∧ (∀ l : List String, ∀ id, id ∉ l → handleVenueToggle id l = l ++ [id]) := by
  refine ⟨toggleFold_nodup ops [] List.nodup_nil, ?_, ?_⟩
  · intro l id hmem
    simp [handleVenueToggle, hmem]
  · intro l id hmem
    simp [handleVenueToggle, hmem]

theorem venue_toggle_spec_witness :
    ((["a", "b", "a"] : List String).foldl (fun cur id => handleVenueToggle id cur) []).Nodup
    ∧ "b" ∉ handleVenueToggle "b" ["a", "b"]
    ∧ handleVenueToggle "c" ["a", "b"] = ["a", "b", "c"] :=
  ⟨(venue_toggle_spec ["a", "b", "a"]).1,
    (venue_toggle_spec []).2.1 ["a", "b"] "b" (by decide),
    (venue_toggle_spec []).2.2 ["a", "b"] "c" (by decide)⟩

/-- Claim C10: a non-empty selection in which no identifier resolves — via
the fetched list, then the static fallback, after normalization — to `"B"`
or `"needs_approval"` gets the success-tagged Category A advisory; and an
identifier with no category in either list resolves to nothing, so it is
treated as Direct. -/
theorem unknown_venue_direct_spec (api fb : List Venue) (ids : List String) (w : Warnings)
    (hne : ids ≠ [])
    (hall : ∀ id ∈ ids, getVenueCategory api fb id ≠ some "B" ∧
        getVenueCategory api fb id ≠ some "needs_approval") :
    ((venueEffect api fb ids w).venue = categoryAMsg ∧
      (venueEffect api fb ids w).venueType = "success")
    ∧ ∀ id : String,
        (api.find? (fun v => v.id == id)).bind Venue.category = none →
        (fb.find? (fun v => v.id == id)).bind Venue.category = none →
        getVenueCategory api fb id = none := by
  refine ⟨?_, ?_⟩
  · rw [venueEffect_all_direct api fb ids w hne hall]; exact ⟨rfl, rfl⟩
  · intro id h1 h2
    simp [getVenueCategory, h1, h2, normalizeVenueCategory]

theorem unknown_venue_direct_spec_witness :
    (["mystery-hall"] : List String) ≠ []
    ∧ (∀ id ∈ (["mystery-hall"] : List String),
        getVenueCategory [] [] id ≠ some "B" ∧ getVenueCategory [] [] id ≠ some "needs_approval")
    ∧ (venueEffect [] [] ["mystery-hall"] initialWarnings).venue = categoryAMsg
    ∧ (venueEffect [] [] ["mystery-hall"] initialWarnings).venueType = "success"
    ∧ getVenueCategory [] [] "mystery-hall" = none :=
  ⟨by decide, by decide,
    (unknown_venue_direct_spec [] [] ["mystery-hall"] initialWarnings (by decide) (by decide)).1.1,
    (unknown_venue_direct_spec [] [] ["mystery-hall"] initialWarnings (by decide) (by decide)).1.2,
    (unknown_venue_direct_spec [] [] ["mystery-hall"] initialWarnings (by decide) (by decide)).2
      "mystery-hall" (by decide) (by decide)⟩
